import Mathlib

/-! The DLL `wxwork_tools_cpp`, file `dllmain.cpp`.

A shallow embedding of the detour DLL `dllmain.cpp`: the two proxy functions
(`LoadXMLProxy`, `WriteLogProxy`), the two installers (`hook_load_xml`,
`hook_write_log`), `WorkerThread` and `DllMain`.

Conventions of the embedding

* a wide string (`std::wstring`, `const wchar_t*`) is the list of its code units,
  a narrow string / byte buffer is the list of its bytes;
* a data pointer (`const wchar_t* path`, `std::wstring* result`, `std::string* log`)
  is an `Option`: `none` is `nullptr`, `some s` points to the object `s`; for the
  C string `path`, `s` is the text before its terminating NUL, while a `std::wstring`
  or `std::string` may hold NUL code units, which a reader of its `c_str()` stops at;
* a trace event records the text of the stream that is handed to `OutputDebugString`;
* a write to an open stream is taken to succeed, and its bytes are in the file once the
  stream has been closed, explicitly or by its destructor;
* a code pointer or module handle (`HMODULE`, `FARPROC`, `LoadXMLFn`) is the
  address as a `Nat`, `0` being `nullptr`;
* every call into the operating system, the C++ library or Detours is recorded as an
  `Event`; what those collaborators answer is given by an `Env`, over which the
  theorems quantify;
* dereferencing `nullptr` or calling through a null code pointer ends the run in
  `Outcome.fault`.
-/

namespace WxworkTools

/-! ## Strings -/

/-- Code units of a wide string. -/
abbrev WString := List Nat

/-- Bytes of a narrow string or of a file. -/
abbrev Bytes := List Nat

/-- Code units of a string literal (`L"..."` and `"..."` literals of the source). -/
def L (s : String) : WString := s.toList.map Char.toNat

/-- Decimal text produced by `stream << n` for a signed integer. -/
def showInt (i : Int) : WString := L (toString i)

/-- Decimal text produced by `stream << n` for an unsigned integer. -/
def showNat (n : Nat) : WString := L (toString n)

/-- Characters read through a `c_str()` pointer by a consumer that takes a
NUL-terminated string: everything before the first NUL. -/
def c_str (s : List Nat) : List Nat := s.takeWhile (fun c => c != 0)

/-- Result of `std::wstring::find_last_of(set)`: the largest index holding a character
of `set`, `none` standing for `npos`. -/
def find_last_of (set : WString) : WString → Option Nat
  | [] => none
  | c :: cs =>
    match find_last_of set cs with
    | some i => some (i + 1)
    | none => if c ∈ set then some 0 else none

/-! ## File system -/

/-- Directories that exist and regular files with their contents, keyed by path text. -/
structure FileSystem where
  dirs : List WString
  files : List (WString × Bytes)
deriving DecidableEq

/-- Content of the file at `p`, `none` when there is no such file. -/
def FileSystem.readFile (fs : FileSystem) (p : WString) : Option Bytes :=
  (fs.files.find? (fun e => e.1 = p)).map (fun e => e.2)

/-- Path separators recognised by `std::filesystem` on Windows: backslash and slash. -/
def isSeparator (c : Nat) : Bool := c = 92 || c = 47

/-- Directories named along `dir`: each non-empty prefix that ends right before a
separator, then `dir` itself. -/
def pathChain (dir : WString) : List WString :=
  (((List.range dir.length).filter
      (fun i => 0 < i && isSeparator (dir.getD i 0))).map (fun i => dir.take i)) ++ [dir]

/-- Effect of a successful `std::filesystem::create_directories(dir, ec)`: every
directory along `dir` that is missing is created. -/
def FileSystem.createDirectories (fs : FileSystem) (dir : WString) : FileSystem :=
  { fs with dirs := fs.dirs ++ (pathChain dir).filter (fun d => d ∉ fs.dirs) }

/-- Effect of a successful `std::ofstream(path, std::ios::binary)`: the file is created,
or truncated to length zero when it exists. -/
def FileSystem.openTruncate (fs : FileSystem) (p : WString) : FileSystem :=
  { fs with files := (p, []) :: fs.files.filter (fun e => e.1 ≠ p) }

/-- Effect of writing `bytes` at the end of the open file `p`. -/
def FileSystem.append (fs : FileSystem) (p : WString) (bytes : Bytes) : FileSystem :=
  { fs with files := fs.files.map (fun e => if e.1 = p then (e.1, e.2 ++ bytes) else e) }

/-! ## Events and environment -/

/-- The two proxies, as targets of `DetourAttach` / `DetourDetach`. -/
inductive Proxy
  | LoadXMLProxy
  | WriteLogProxy
deriving DecidableEq

/-- Calls into the collaborators, in program order. -/
inductive Event
  | OutputDebugStringW (text : WString)
  | OutputDebugStringA (text : Bytes)
  | OriginalLoadXML (fn : Nat) (this : Nat) (path : Option WString) (flag : Int)
  | OriginalWriteLog (fn : Nat) (this : Nat) (log : Option Bytes)
  | create_directories (dir : WString) (ec : Option WString)
  | ofstream_open (path : WString) (is_open : Bool)
  | ofstream_write (path : WString) (bytes : Bytes)
  | ofstream_close (path : WString)
  | LoadLibraryW (name : WString) (hDll : Nat)
  | GetProcAddress (hDll : Nat) (symbol : WString) (addr : Nat)
  | FreeLibrary (hDll : Nat)
  | DetourTransactionBegin
  | DetourUpdateThread
  | DetourAttach (target : Nat) (proxy : Proxy)
  | DetourDetach (pointer : Nat) (proxy : Proxy)
  | DetourTransactionCommit (error : Int)
  | CreateThread (hThread : Nat)
  | CloseHandle (hThread : Nat)
deriving DecidableEq

/-- Answers of the collaborators: the host code behind the saved pointers, the file
system calls, the text converter, the loader and Detours. -/
structure Env where
  /-- What the code at address `fn` returns for `LoadXML(this, path, flag)`. -/
  invokeLoadXML : Nat → Nat → Option WString → Int → Option WString
  /-- What the code at address `fn` returns for `WriteLog(this, log)`. -/
  invokeWriteLog : Nat → Nat → Option Bytes → Nat
  /-- Error reported by `create_directories(dir, ec)`: `none` when `ec` is clear,
  `some msg` when `ec` is set and `ec.message()` is `msg`. -/
  create_directories_ec : FileSystem → WString → Option WString
  /-- Whether `std::ofstream(path, std::ios::binary)` ends up open. -/
  ofstream_is_open : FileSystem → WString → Bool
  /-- The conversion `std::wstring_convert<std::codecvt_utf8<wchar_t>>::to_bytes` on a
  character range: the bytes, or the `what()` of the exception it throws. -/
  to_bytes : WString → Except WString Bytes
  /-- Handle returned by `LoadLibraryW(name)`, `0` on failure. -/
  LoadLibraryW : WString → Nat
  /-- Address returned by `GetProcAddress(hDll, symbol)`, `0` on failure. -/
  GetProcAddress : Nat → WString → Nat
  /-- Value of `GetLastError()` after a failed loader call. -/
  GetLastError : Nat
  /-- Result of `DetourTransactionCommit()` for a transaction that attaches `proxy` at
  the given target address; `0` is `NO_ERROR`. -/
  DetourTransactionCommit : Nat → Proxy → Int
  /-- Result of `DetourTransactionCommit()` for a transaction that detaches `proxy` from
  the given pointer. -/
  DetourTransactionCommit_detach : Nat → Proxy → Int
  /-- Address of the trampoline Detours stores in the pointer on a committed attach. -/
  trampoline : Nat → Nat
  /-- Handle returned by `CreateThread`, `0` on failure. -/
  CreateThread : Nat

/-- The globals of the DLL together with what Detours has patched. -/
structure Globals where
  /-- `static LoadXMLFn OriginalLoadXML`. -/
  OriginalLoadXML : Nat
  /-- `static WriteLogFn OriginalWriteLog`. -/
  OriginalWriteLog : Nat
  /-- Proxies whose attach transaction committed and that have not been detached. -/
  attached : List Proxy
deriving DecidableEq

/-- State at load time: both pointers are `nullptr`, nothing is patched. -/
def Globals.initial : Globals := { OriginalLoadXML := 0, OriginalWriteLog := 0, attached := [] }

/-- How a proxy invocation ends. -/
inductive Outcome (α : Type)
  | returned (ret : α) (fs : FileSystem) (events : List Event)
  | fault (events : List Event)
deriving DecidableEq

/-! ## LoadXMLProxy -/

/-- The three bytes `0xEF 0xBB 0xBF` of `bom[]`. -/
def bom : Bytes := [0xEF, 0xBB, 0xBF]

/-- Text of the first trace line of `LoadXMLProxy` (lines 32-38). -/
def LoadXMLProxy.callTrace (path : Option WString) (flag : Int) : WString :=
  match path with
  | some p => L "duilib_helper LoadXML called: path=" ++ p ++ L ", flag=" ++ showInt flag
  | none => L "duilib_helper LoadXML called: path=NULL, flag=" ++ showInt flag

/-- Pre-call observation of `LoadXMLProxy` (lines 32-39): the events it emits, or a
fault. No pointer is dereferenced unless the null test has passed. -/
def LoadXMLProxy.observe (path : Option WString) (flag : Int) : Except Unit (List Event) :=
  .ok [Event.OutputDebugStringW (LoadXMLProxy.callTrace path flag)]

/-- Lines 76-98: open the file, write the byte-order mark, convert, write, close.
A throw of `to_bytes` leaves the block through the `catch` of line 100, the stream
being closed by its destructor. -/
def LoadXMLProxy.writeFile (env : Env) (fs : FileSystem) (r : WString) (p newPath : WString) :
    FileSystem × List Event :=
  if env.ofstream_is_open fs newPath then
    let fs1 := (fs.openTruncate newPath).append newPath bom
    let opened := [Event.ofstream_open newPath true, Event.ofstream_write newPath bom]
    match env.to_bytes (c_str r) with
    | .ok utf8Content =>
      (fs1.append newPath utf8Content,
        opened ++ [Event.ofstream_write newPath utf8Content, Event.ofstream_close newPath,
          Event.OutputDebugStringW
            (L "duilib_helper XML content saved to file (UTF-8): " ++ newPath ++
              L " (original path: " ++ p ++ L ")")])
    | .error what =>
      (fs1,
        opened ++ [Event.ofstream_close newPath,
          Event.OutputDebugStringW (L "duilib_helper Exception while saving XML: " ++ what)])
  else
    (fs, [Event.ofstream_open newPath false,
      Event.OutputDebugStringW (L "duilib_helper Failed to open file for writing: " ++ newPath)])

/-- Lines 48-104, the `try` block entered when both `result` and `path` are non-null.
Both ways out of it (the `return result` of line 70 and falling through to line 112)
return `result`, so only the file system and the events are produced here. -/
def LoadXMLProxy.save (env : Env) (fs : FileSystem) (r : WString) (p : WString) :
    FileSystem × List Event :=
  let newPath := L "wxwork_ui\\" ++ p
  let dirPath := newPath
  match find_last_of (L "\\/") dirPath with
  | some lastSlash =>
    let directory := dirPath.take lastSlash
    if directory ≠ [] then
      match env.create_directories_ec fs directory with
      | some message =>
        (fs, [Event.create_directories directory (some message),
          Event.OutputDebugStringW
            (L "duilib_helper Failed to create directory: " ++ directory ++ L ", error: " ++
              message)])
      | none =>
        let fs1 := fs.createDirectories directory
        let (fs2, evs) := LoadXMLProxy.writeFile env fs1 r p newPath
        (fs2, Event.create_directories directory none :: evs)
    else
      LoadXMLProxy.writeFile env fs r p newPath
  | none => LoadXMLProxy.writeFile env fs r p newPath

/-- Post-call observation of `LoadXMLProxy` (lines 47-110). -/
def LoadXMLProxy.capture (env : Env) (fs : FileSystem) (result path : Option WString) :
    FileSystem × List Event :=
  match result, path with
  | some r, some p => LoadXMLProxy.save env fs r p
  | none, some p =>
    (fs, [Event.OutputDebugStringW
      (L "duilib_helper Cannot save XML: result is NULL for path " ++ p)])
  | _, none => (fs, [])

/-- The proxy `LoadXMLProxy(_this, path, flag)` (lines 30-113). -/
def LoadXMLProxy (env : Env) (g : Globals) (fs : FileSystem)
    (this : Nat) (path : Option WString) (flag : Int) : Outcome (Option WString) :=
  match LoadXMLProxy.observe path flag with
  | .error _ => .fault []
  | .ok pre =>
    if g.OriginalLoadXML = 0 then .fault pre
    else
      let result := env.invokeLoadXML g.OriginalLoadXML this path flag
      let called := pre ++ [Event.OriginalLoadXML g.OriginalLoadXML this path flag]
      let (fs1, post) := LoadXMLProxy.capture env fs result path
      .returned result fs1 (called ++ post)

/-! ## WriteLogProxy -/

/-- Pre-call observation of `WriteLogProxy` (lines 117-119): `log->c_str()` is evaluated
without a null test, so a null `log` faults. -/
def WriteLogProxy.observe (log : Option Bytes) : Except Unit (List Event) :=
  match log with
  | none => .error ()
  | some s => .ok [Event.OutputDebugStringA (L "wxwork_log\t" ++ c_str s)]

/-- The proxy `WriteLogProxy(_this, log)` (lines 115-121). -/
def WriteLogProxy (env : Env) (g : Globals) (fs : FileSystem)
    (this : Nat) (log : Option Bytes) : Outcome Nat :=
  match WriteLogProxy.observe log with
  | .error _ => .fault []
  | .ok pre =>
    if g.OriginalWriteLog = 0 then .fault pre
    else
      .returned (env.invokeWriteLog g.OriginalWriteLog this log) fs
        (pre ++ [Event.OriginalWriteLog g.OriginalWriteLog this log])

/-! ## Installing and removing the hooks -/

/-- Result of an installer or of `DllMain`: the globals afterwards and the events. -/
abbrev Step := Globals × List Event

/-- The decorated export name looked up by `hook_load_xml`. -/
def LoadXML_symbol : WString :=
  L "?LoadXML@CResManager@DuiLib@@SA?AV?$basic_string@_WU?$char_traits@_W@std@@V?$allocator@_W@2@@std@@PB_WH@Z"

/-- The installer `hook_load_xml()` (lines 123-165). -/
def hook_load_xml (env : Env) (g : Globals) : Step :=
  let hDll := env.LoadLibraryW (L "duilib.dll")
  let loaded := [Event.LoadLibraryW (L "duilib.dll") hDll]
  if hDll = 0 then
    (g, loaded ++ [Event.OutputDebugStringW (L "LoadLibraryW failed: " ++ showNat env.GetLastError)])
  else
    let addr := env.GetProcAddress hDll LoadXML_symbol
    let looked := loaded ++ [Event.GetProcAddress hDll LoadXML_symbol addr]
    if addr = 0 then
      (g, looked ++
        [Event.OutputDebugStringW (L "GetProcAddress failed: " ++ showNat env.GetLastError),
          Event.FreeLibrary hDll])
    else
      let g1 := { g with OriginalLoadXML := addr }
      let error := env.DetourTransactionCommit addr Proxy.LoadXMLProxy
      let patched := looked ++
        [Event.DetourTransactionBegin, Event.DetourUpdateThread,
          Event.DetourAttach addr Proxy.LoadXMLProxy, Event.DetourTransactionCommit error]
      if error ≠ 0 then
        (g1, patched ++
          [Event.OutputDebugStringW (L "Failed to set hook: " ++ showInt error),
            Event.FreeLibrary hDll])
      else
        ({ g1 with OriginalLoadXML := env.trampoline addr,
                   attached := Proxy.LoadXMLProxy :: g1.attached },
          patched ++ [Event.OutputDebugStringW (L "Successfully hooked LoadXML function")])

/-- The installer `hook_write_log()` (lines 167-199); the target is the 32-bit sum
`DWORD(hDll) + 0x33D158`. -/
def hook_write_log (env : Env) (g : Globals) : Step :=
  let hDll := env.LoadLibraryW (L "wxwork.exe")
  let loaded := [Event.LoadLibraryW (L "wxwork.exe") hDll]
  if hDll = 0 then
    (g, loaded ++ [Event.OutputDebugStringW (L "LoadLibraryW failed: " ++ showNat env.GetLastError)])
  else
    let addr := (hDll % 2 ^ 32 + 0x33D158) % 2 ^ 32
    let g1 := { g with OriginalWriteLog := addr }
    let error := env.DetourTransactionCommit addr Proxy.WriteLogProxy
    let patched := loaded ++
      [Event.DetourTransactionBegin, Event.DetourUpdateThread,
        Event.DetourAttach addr Proxy.WriteLogProxy, Event.DetourTransactionCommit error]
    if error ≠ 0 then
      (g1, patched ++
        [Event.OutputDebugStringW (L "Failed to set hook: " ++ showInt error),
          Event.FreeLibrary hDll])
    else
      ({ g1 with OriginalWriteLog := env.trampoline addr,
                 attached := Proxy.WriteLogProxy :: g1.attached },
        patched ++ [Event.OutputDebugStringW (L "Successfully hooked WriteLog function")])

/-- The thread body `WorkerThread()` (lines 202-205): the call of `hook_load_xml` is
commented out, only `hook_write_log` runs. -/
def WorkerThread (env : Env) (g : Globals) : Step :=
  hook_write_log env g

/-- Values of `ul_reason_for_call` in `<windows.h>`. -/
def DLL_PROCESS_DETACH : Nat := 0

/-- See `DLL_PROCESS_DETACH`. -/
def DLL_PROCESS_ATTACH : Nat := 1

/-- The entry point `DllMain(hModule, ul_reason_for_call, lpReserved)` (lines 208-236).
On attach it only creates the thread; the thread body is the separate step
`WorkerThread`. The return value is always `TRUE` and is left out; the value Detours
leaves in the pointer after a detach is not tracked, the DLL being unloaded. -/
def DllMain (env : Env) (g : Globals) (ul_reason_for_call : Nat) : Step :=
  if ul_reason_for_call = DLL_PROCESS_ATTACH then
    let hThread := env.CreateThread
    (g, Event.CreateThread hThread :: (if hThread ≠ 0 then [Event.CloseHandle hThread] else []))
  else if ul_reason_for_call = DLL_PROCESS_DETACH then
    if g.OriginalLoadXML ≠ 0 then
      let error := env.DetourTransactionCommit_detach g.OriginalLoadXML Proxy.LoadXMLProxy
      ((if error = 0 then { g with attached := g.attached.erase Proxy.LoadXMLProxy } else g),
        [Event.DetourTransactionBegin, Event.DetourUpdateThread,
          Event.DetourDetach g.OriginalLoadXML Proxy.LoadXMLProxy,
          Event.DetourTransactionCommit error])
    else (g, [])
  else (g, [])

/-- Whether an event is one of the patching calls of Detours. -/
def Event.isPatching : Event → Bool
  | .DetourTransactionBegin => true
  | .DetourUpdateThread => true
  | .DetourAttach _ _ => true
  | .DetourDetach _ _ => true
  | .DetourTransactionCommit _ => true
  | _ => false

/-- Whether an event is a trace line. -/
def Event.isTrace : Event → Bool
  | .OutputDebugStringW _ => true
  | .OutputDebugStringA _ => true
  | _ => false

/-- Whether an event is a call through one of the saved original pointers. -/
def Event.isOriginalCall : Event → Bool
  | .OriginalLoadXML _ _ _ _ => true
  | .OriginalWriteLog _ _ _ => true
  | _ => false

/-- Whether an event creates a directory or opens, writes or closes a file. -/
def Event.isPersistence : Event → Bool
  | .create_directories _ _ => true
  | .ofstream_open _ _ => true
  | .ofstream_write _ _ => true
  | .ofstream_close _ => true
  | _ => false

/-- Whether an event detaches the given proxy. -/
def Event.isDetachOf (proxy : Proxy) : Event → Bool
  | .DetourDetach _ q => q = proxy
  | _ => false

/-- A whole life of the DLL in which the thread has finished before unloading:
`DllMain(DLL_PROCESS_ATTACH)`, the thread body when the thread was created, then
`DllMain(DLL_PROCESS_DETACH)`. The result is the globals before the unload
notification, the events of the unload notification, and the globals after it. -/
def lifecycle (env : Env) : Globals × List Event × Globals :=
  let s1 := DllMain env Globals.initial DLL_PROCESS_ATTACH
  let s2 := if env.CreateThread ≠ 0 then WorkerThread env s1.1 else (s1.1, [])
  let s3 := DllMain env s2.1 DLL_PROCESS_DETACH
  (s2.1, s3.2, s3.1)

/-- Value returned by a proxy, `none` when the run faulted. -/
def Outcome.ret? {α : Type} : Outcome α → Option α
  | .returned ret _ _ => some ret
  | .fault _ => none

/-- Events of a run. -/
def Outcome.events {α : Type} : Outcome α → List Event
  | .returned _ _ events => events
  | .fault events => events

/-- File system after a run, the initial one when the run faulted. -/
def Outcome.fs {α : Type} (fs0 : FileSystem) : Outcome α → FileSystem
  | .returned _ fs _ => fs
  | .fault _ => fs0

/-- Whether a run ended in a fault. -/
def Outcome.faulted {α : Type} : Outcome α → Bool
  | .returned _ _ _ => false
  | .fault _ => true

/-! ## The converter of the C++ library

`std::codecvt_utf8<wchar_t>` translates each element on its own, by magnitude, and
reports an error for an element above `Maxcode = 0x10ffff`; `to_bytes` then throws
`std::range_error`. -/

/-- UTF-8 bytes of one element, `none` for an element above `0x10ffff`. -/
def codecvt_utf8_out (c : Nat) : Option Bytes :=
  if c < 0x80 then some [c]
  else if c < 0x800 then some [0xC0 + c / 64, 0x80 + c % 64]
  else if c < 0x10000 then some [0xE0 + c / 4096, 0x80 + c / 64 % 64, 0x80 + c % 64]
  else if c < 0x110000 then
    some [0xF0 + c / 262144, 0x80 + c / 4096 % 64, 0x80 + c / 64 % 64, 0x80 + c % 64]
  else none

/-- UTF-8 bytes of a range of elements, `none` as soon as one element is rejected. -/
def utf8_encode : WString → Option Bytes
  | [] => some []
  | c :: cs =>
    match codecvt_utf8_out c, utf8_encode cs with
    | some b, some bs => some (b ++ bs)
    | _, _ => none

/-- The conversion `to_bytes` of the library on a character range. -/
def wstring_convert_to_bytes (s : WString) : Except WString Bytes :=
  match utf8_encode s with
  | some bytes => .ok bytes
  | none => .error (L "bad conversion")

/-- Decoder matching `codecvt_utf8_out`: one- to three-byte sequences give back one
element; anything else stops the decoding with `none`. -/
def utf8_decode : Bytes → Option WString
  | [] => some []
  | [b0] => if b0 < 0x80 then some [b0] else none
  | [b0, b1] =>
    if b0 < 0x80 then (utf8_decode [b1]).map (fun cs => b0 :: cs)
    else if 0xC0 ≤ b0 ∧ b0 < 0xE0 then some [(b0 - 0xC0) * 64 + (b1 - 0x80)]
    else none
  | b0 :: b1 :: b2 :: rest =>
    if b0 < 0x80 then (utf8_decode (b1 :: b2 :: rest)).map (fun cs => b0 :: cs)
    else if 0xC0 ≤ b0 ∧ b0 < 0xE0 then
      (utf8_decode (b2 :: rest)).map (fun cs => ((b0 - 0xC0) * 64 + (b1 - 0x80)) :: cs)
    else if 0xE0 ≤ b0 ∧ b0 < 0xF0 then
      (utf8_decode rest).map
        (fun cs => ((b0 - 0xE0) * 4096 + (b1 - 0x80) * 64 + (b2 - 0x80)) :: cs)
    else none

/-! ## Sample collaborators -/

/-- A host in which everything succeeds: `LoadXML` returns the three code units
`a`, NUL, `b`, the loader finds `wxwork.exe` at `0x400000`, every commit succeeds. -/
def sampleEnv : Env where
  invokeLoadXML := fun _ _ _ _ => some [0x61, 0, 0x62]
  invokeWriteLog := fun _ _ _ => 0x1234
  create_directories_ec := fun _ _ => none
  ofstream_is_open := fun _ _ => true
  to_bytes := wstring_convert_to_bytes
  LoadLibraryW := fun _ => 0x400000
  GetProcAddress := fun _ _ => 0x10001000
  GetLastError := 0
  DetourTransactionCommit := fun _ _ => 0
  DetourTransactionCommit_detach := fun _ _ => 0
  trampoline := fun a => a + 0x100000
  CreateThread := 0x88

/-- Globals after both pointers have been set. -/
def sampleGlobals : Globals :=
  { OriginalLoadXML := 0x10001000, OriginalWriteLog := 0x73D158, attached := [] }

/-- An empty file system. -/
def emptyFs : FileSystem := { dirs := [], files := [] }

/-- A host as `sampleEnv` whose `LoadXML` returns `nullptr`. -/
def nullResultEnv : Env := { sampleEnv with invokeLoadXML := fun _ _ _ _ => none }

/-- A host as `sampleEnv` in which the converter throws. -/
def throwingEnv : Env := { sampleEnv with to_bytes := fun _ => .error (L "bad conversion") }

/-- A host as `sampleEnv` in which a stream on a path that ends in a separator does not
open. -/
def strictOpenEnv : Env :=
  { sampleEnv with
    ofstream_is_open := fun _ p =>
      match p.getLast? with
      | some c => !isSeparator c
      | none => false }

/-- A host as `sampleEnv` in which no directory can be created. -/
def readOnlyEnv : Env :=
  { sampleEnv with create_directories_ec := fun _ _ => some (L "Access is denied.") }

/-- A host as `sampleEnv` in which no file can be opened for writing. -/
def noOpenEnv : Env := { sampleEnv with ofstream_is_open := fun _ _ => false }

/-- A host as `sampleEnv` in which no module can be loaded. -/
def noModuleEnv : Env := { sampleEnv with LoadLibraryW := fun _ => 0, GetLastError := 126 }

/-- A host as `sampleEnv` in which every attach transaction fails to commit. -/
def commitFailEnv : Env := { sampleEnv with DetourTransactionCommit := fun _ _ => 5 }

/-- A file system that already holds an artifact at `wxwork_ui\a.xml`. -/
def usedFs : FileSystem :=
  { dirs := [L "wxwork_ui"], files := [(L "wxwork_ui\\a.xml", [0xEF, 0xBB, 0xBF, 0x6F, 0x6C, 0x64])] }

/-- A host as `sampleEnv` whose `LoadXML` returns the text `<r/>`. -/
def laterEnv : Env := { sampleEnv with invokeLoadXML := fun _ _ _ _ => some (L "<r/>") }

/-- A file system in which `wxwork_ui\a` exists and `wxwork_ui\a/b` does not. -/
def shallowFs : FileSystem := { dirs := [L "wxwork_ui", L "wxwork_ui\\a"], files := [] }

/-- A host as `sampleEnv` in which `duilib.dll` does not export the symbol. -/
def noSymbolEnv : Env := { sampleEnv with GetProcAddress := fun _ _ => 0, GetLastError := 127 }

/-- A host as `laterEnv` in which no file can be opened for writing. -/
def laterNoOpenEnv : Env := { laterEnv with ofstream_is_open := fun _ _ => false }

/-- A host as `laterEnv` in which no directory can be created. -/
def laterReadOnlyEnv : Env :=
  { laterEnv with create_directories_ec := fun _ _ => some (L "Access is denied.") }

/-! ## Names used in the statements -/

/-- The destination `newPath` of `LoadXMLProxy` for the path text `p` (lines 50-51). -/
def LoadXMLProxy.newPath (p : WString) : WString := L "wxwork_ui\\" ++ p

/-- The text `directory` of `LoadXMLProxy` for the path text `p` (lines 54-59), empty
when `find_last_of` answers `npos`. -/
def LoadXMLProxy.directory (p : WString) : WString :=
  match find_last_of (L "\\/") (LoadXMLProxy.newPath p) with
  | some lastSlash => (LoadXMLProxy.newPath p).take lastSlash
  | none => []

/-- The trace of line 108, which records a null result. -/
def Event.recordsNullResult : Event → Bool
  | .OutputDebugStringW text => decide (L "result is NULL" <:+: text)
  | _ => false

/-! ## Shape of the post-call observation -/

theorem writeFile_no_original_call (env : Env) (fs : FileSystem) (r p newPath : WString) :
    (LoadXMLProxy.writeFile env fs r p newPath).2.filter Event.isOriginalCall = [] := by
  unfold LoadXMLProxy.writeFile
  split
  · split <;> simp [Event.isOriginalCall]
  · simp [Event.isOriginalCall]

theorem save_no_original_call (env : Env) (fs : FileSystem) (r p : WString) :
    (LoadXMLProxy.save env fs r p).2.filter Event.isOriginalCall = [] := by
  unfold LoadXMLProxy.save
  simp only
  split
  · split
    · split
      · simp [Event.isOriginalCall]
      · simp [Event.isOriginalCall, writeFile_no_original_call]
    · exact writeFile_no_original_call _ _ _ _ _
  · exact writeFile_no_original_call _ _ _ _ _

theorem capture_no_original_call (env : Env) (fs : FileSystem) (result path : Option WString) :
    (LoadXMLProxy.capture env fs result path).2.filter Event.isOriginalCall = [] := by
  unfold LoadXMLProxy.capture
  split
  · exact save_no_original_call _ _ _ _
  · simp [Event.isOriginalCall]
  · simp

/-- How `LoadXMLProxy` ends when the saved pointer is set. -/
theorem LoadXMLProxy_eq (env : Env) (g : Globals) (fs : FileSystem) (this : Nat)
    (path : Option WString) (flag : Int) (h : g.OriginalLoadXML ≠ 0) :
    LoadXMLProxy env g fs this path flag =
      .returned (env.invokeLoadXML g.OriginalLoadXML this path flag)
        (LoadXMLProxy.capture env fs (env.invokeLoadXML g.OriginalLoadXML this path flag) path).1
        ([Event.OutputDebugStringW (LoadXMLProxy.callTrace path flag),
          Event.OriginalLoadXML g.OriginalLoadXML this path flag] ++
          (LoadXMLProxy.capture env fs
            (env.invokeLoadXML g.OriginalLoadXML this path flag) path).2) := by
  simp [LoadXMLProxy, LoadXMLProxy.observe, h]

/-- How `WriteLogProxy` ends for a non-null `log` when the saved pointer is set. -/
theorem WriteLogProxy_eq (env : Env) (g : Globals) (fs : FileSystem) (this : Nat)
    (log : Bytes) (h : g.OriginalWriteLog ≠ 0) :
    WriteLogProxy env g fs this (some log) =
      .returned (env.invokeWriteLog g.OriginalWriteLog this (some log)) fs
        [Event.OutputDebugStringA (L "wxwork_log\t" ++ c_str log),
          Event.OriginalWriteLog g.OriginalWriteLog this (some log)] := by
  simp [WriteLogProxy, WriteLogProxy.observe, h]

/-! ## C1: pass-through -/

/-- C1. Pass-through transparency: once the saved pointer is set, every invocation
`LoadXMLProxy(this, path, flag)` returns (it does not fault), the original function is
called exactly once, with the same three arguments, and the value returned is the one
the original returned, whatever the file system calls and the converter answer;
`WriteLogProxy(this, log)` with a non-null `log` likewise calls the original once with
`(this, log)` and returns its result, leaving the file system alone. -/
theorem C1_pass_through (env : Env) (g : Globals) (fs : FileSystem) (this : Nat)
    (path : Option WString) (flag : Int) (log : Bytes) :
    (g.OriginalLoadXML ≠ 0 →
      (LoadXMLProxy env g fs this path flag).ret?
          = some (env.invokeLoadXML g.OriginalLoadXML this path flag) ∧
        (LoadXMLProxy env g fs this path flag).events.filter Event.isOriginalCall
          = [Event.OriginalLoadXML g.OriginalLoadXML this path flag]) ∧
    (g.OriginalWriteLog ≠ 0 →
      (WriteLogProxy env g fs this (some log)).ret?
          = some (env.invokeWriteLog g.OriginalWriteLog this (some log)) ∧
        (WriteLogProxy env g fs this (some log)).events.filter Event.isOriginalCall
          = [Event.OriginalWriteLog g.OriginalWriteLog this (some log)] ∧
        (WriteLogProxy env g fs this (some log)).fs fs = fs) := by
  refine ⟨fun h => ?_, fun h => ?_⟩
  · rw [LoadXMLProxy_eq env g fs this path flag h]
    refine ⟨rfl, ?_⟩
    simp [Outcome.events, Event.isOriginalCall, capture_no_original_call]
  · rw [WriteLogProxy_eq env g fs this log h]
    simp [Outcome.ret?, Outcome.events, Outcome.fs, Event.isOriginalCall]

/-- C1 at a sample call of each proxy. -/
theorem C1_pass_through_witness :
    ((LoadXMLProxy sampleEnv sampleGlobals emptyFs 7 (some (L "skin/main.xml")) 3).ret?
          = some (sampleEnv.invokeLoadXML sampleGlobals.OriginalLoadXML 7
              (some (L "skin/main.xml")) 3) ∧
        (LoadXMLProxy sampleEnv sampleGlobals emptyFs 7
            (some (L "skin/main.xml")) 3).events.filter Event.isOriginalCall
          = [Event.OriginalLoadXML sampleGlobals.OriginalLoadXML 7
              (some (L "skin/main.xml")) 3]) ∧
      ((WriteLogProxy sampleEnv sampleGlobals emptyFs 7 (some (L "hello"))).ret?
          = some (sampleEnv.invokeWriteLog sampleGlobals.OriginalWriteLog 7
              (some (L "hello"))) ∧
        (WriteLogProxy sampleEnv sampleGlobals emptyFs 7
            (some (L "hello"))).events.filter Event.isOriginalCall
          = [Event.OriginalWriteLog sampleGlobals.OriginalWriteLog 7 (some (L "hello"))] ∧
        (WriteLogProxy sampleEnv sampleGlobals emptyFs 7 (some (L "hello"))).fs emptyFs
          = emptyFs) :=
  ⟨(C1_pass_through sampleEnv sampleGlobals emptyFs 7 (some (L "skin/main.xml")) 3
      (L "hello")).1 (by decide),
    (C1_pass_through sampleEnv sampleGlobals emptyFs 7 (some (L "skin/main.xml")) 3
      (L "hello")).2 (by decide)⟩

/-! ## The directory part of the destination -/

theorem find_last_of_none (set : WString) :
    ∀ s : WString, find_last_of set s = none → ∀ x ∈ s, x ∉ set
  | [], _ => by simp
  | c :: cs, h => by
    unfold find_last_of at h
    cases hcs : find_last_of set cs with
    | some i => simp [hcs] at h
    | none =>
      simp only [hcs] at h
      have hc : c ∉ set := by
        intro hmem
        simp [hmem] at h
      intro x hx
      rcases List.mem_cons.mp hx with rfl | hx
      · exact hc
      · exact find_last_of_none set cs hcs x hx

theorem find_last_of_spec (set : WString) :
    ∀ (s : WString) (i : Nat), find_last_of set s = some i →
      ∃ c rest, s = s.take i ++ c :: rest ∧ c ∈ set ∧ ∀ x ∈ rest, x ∉ set
  | [], _, h => by simp [find_last_of] at h
  | c :: cs, i, h => by
    unfold find_last_of at h
    cases hcs : find_last_of set cs with
    | some j =>
      simp only [hcs, Option.some.injEq] at h
      subst h
      obtain ⟨d, rest, h1, h2, h3⟩ := find_last_of_spec set cs j hcs
      refine ⟨d, rest, ?_, h2, h3⟩
      simp only [List.take_succ_cons, List.cons_append]
      exact congrArg (List.cons c) h1
    | none =>
      simp only [hcs] at h
      by_cases hc : c ∈ set
      · simp only [hc, if_true, Option.some.injEq] at h
        subst h
        exact ⟨c, cs, by simp, hc, find_last_of_none set cs hcs⟩
      · simp [hc] at h

theorem find_last_of_append (set b : WString) :
    ∀ (a : WString) (j : Nat), find_last_of set a = some j →
      ∃ i, find_last_of set (a ++ b) = some i ∧ j ≤ i
  | [], _, h => by simp [find_last_of] at h
  | c :: cs, j, h => by
    unfold find_last_of at h
    cases hcs : find_last_of set cs with
    | some k =>
      simp only [hcs, Option.some.injEq] at h
      subst h
      obtain ⟨i, h1, h2⟩ := find_last_of_append set b cs k hcs
      refine ⟨i + 1, ?_, by omega⟩
      simp [find_last_of, h1]
    | none =>
      simp only [hcs] at h
      by_cases hc : c ∈ set
      · simp only [hc, if_true, Option.some.injEq] at h
        subst h
        cases hb : find_last_of set (cs ++ b) with
        | some k => exact ⟨k + 1, by simp [find_last_of, hb], by omega⟩
        | none => exact ⟨0, by simp [find_last_of, hb, hc], le_refl 0⟩
      · simp [hc] at h

/-- The destination always contains the backslash of its fixed first part, so
`find_last_of` never answers `npos` and `directory` is never empty. -/
theorem newPath_lastSlash (p : WString) :
    ∃ i, find_last_of (L "\\/") (LoadXMLProxy.newPath p) = some i ∧ 9 ≤ i ∧
      LoadXMLProxy.directory p = (LoadXMLProxy.newPath p).take i ∧
      LoadXMLProxy.directory p ≠ [] := by
  have h9 : find_last_of (L "\\/") (L "wxwork_ui\\") = some 9 := by decide
  obtain ⟨i, hi, hle⟩ := find_last_of_append (L "\\/") p (L "wxwork_ui\\") 9 h9
  have hdir : LoadXMLProxy.directory p = (LoadXMLProxy.newPath p).take i := by
    simp [LoadXMLProxy.directory, LoadXMLProxy.newPath, hi]
  refine ⟨i, hi, hle, hdir, ?_⟩
  rw [hdir]
  intro hnil
  have hlen : ((LoadXMLProxy.newPath p).take i).length = 0 := by rw [hnil]; rfl
  have h10 : (L "wxwork_ui\\").length = 10 := by decide
  simp only [LoadXMLProxy.newPath, List.length_take, List.length_append, h10] at hlen
  omega

/-- The directory is the part of the destination before its last separator. -/
theorem directory_spec (p : WString) :
    ∃ c file, LoadXMLProxy.newPath p = LoadXMLProxy.directory p ++ c :: file ∧
      isSeparator c = true ∧ ∀ x ∈ file, isSeparator x = false := by
  obtain ⟨i, hi, _, hdir, _⟩ := newPath_lastSlash p
  obtain ⟨c, rest, h1, h2, h3⟩ := find_last_of_spec _ _ i hi
  refine ⟨c, rest, by rw [hdir]; exact h1, ?_, ?_⟩
  · have : c = 92 ∨ c = 47 := by simpa [L] using h2
    rcases this with rfl | rfl <;> decide
  · intro x hx
    have hx3 := h3 x hx
    have : ¬ (x = 92 ∨ x = 47) := by simpa [L] using hx3
    simp only [isSeparator, Bool.or_eq_false_iff, decide_eq_false_iff_not]
    exact ⟨fun h => this (Or.inl h), fun h => this (Or.inr h)⟩

/-- The `try` block of `LoadXMLProxy` in terms of `directory` and `newPath`. -/
theorem save_eq (env : Env) (fs : FileSystem) (r p : WString) :
    LoadXMLProxy.save env fs r p =
      match env.create_directories_ec fs (LoadXMLProxy.directory p) with
      | some message =>
        (fs, [Event.create_directories (LoadXMLProxy.directory p) (some message),
          Event.OutputDebugStringW
            (L "duilib_helper Failed to create directory: " ++ LoadXMLProxy.directory p ++
              L ", error: " ++ message)])
      | none =>
        ((LoadXMLProxy.writeFile env (fs.createDirectories (LoadXMLProxy.directory p)) r p
            (LoadXMLProxy.newPath p)).1,
          Event.create_directories (LoadXMLProxy.directory p) none ::
            (LoadXMLProxy.writeFile env (fs.createDirectories (LoadXMLProxy.directory p)) r p
              (LoadXMLProxy.newPath p)).2) := by
  obtain ⟨i, hi, _, hdir, hne⟩ := newPath_lastSlash p
  have hi2 : find_last_of (L "\\/") (L "wxwork_ui\\" ++ p) = some i := hi
  have hne2 : List.take i (L "wxwork_ui\\" ++ p) ≠ [] := by
    rw [hdir] at hne; exact hne
  rw [hdir]
  unfold LoadXMLProxy.save
  simp only [hi2, LoadXMLProxy.newPath]
  rw [if_pos hne2]

/-- How `LoadXMLProxy` ends when path and result are both non-null. -/
theorem LoadXMLProxy_save (env : Env) (g : Globals) (fs : FileSystem) (this : Nat)
    (p : WString) (flag : Int) (r : WString) (hg : g.OriginalLoadXML ≠ 0)
    (hr : env.invokeLoadXML g.OriginalLoadXML this (some p) flag = some r) :
    LoadXMLProxy env g fs this (some p) flag =
      .returned (some r) (LoadXMLProxy.save env fs r p).1
        ([Event.OutputDebugStringW (LoadXMLProxy.callTrace (some p) flag),
          Event.OriginalLoadXML g.OriginalLoadXML this (some p) flag] ++
          (LoadXMLProxy.save env fs r p).2) := by
  rw [LoadXMLProxy_eq env g fs this (some p) flag hg, hr]
  rfl

/-- Reading a file right after it was opened with truncation and written twice. -/
theorem readFile_open_append_append (fs : FileSystem) (p : WString) (a b : Bytes) :
    (((fs.openTruncate p).append p a).append p b).readFile p = some (a ++ b) := by
  simp [FileSystem.readFile, FileSystem.openTruncate, FileSystem.append]

/-- Reading a file right after it was opened with truncation and written once. -/
theorem readFile_open_append (fs : FileSystem) (p : WString) (a : Bytes) :
    ((fs.openTruncate p).append p a).readFile p = some a := by
  simp [FileSystem.readFile, FileSystem.openTruncate, FileSystem.append]

/-! ## C9: failed directory creation, failed open -/

/-- C9. For every call of `LoadXMLProxy` with non-null path and non-null result: when
`create_directories` reports an error the run consists of the call trace, the call of
the original, the one `create_directories` call and one failure trace - no file is
opened or written, the file system is untouched, nothing is tried again - and the
original result is returned; when the directory is created but the stream does not open,
the run ends with the failed open and one failure trace, no byte is written (the files
are those of before) and the original result is returned. -/
theorem C9_failed_persistence (env : Env) (g : Globals) (fs : FileSystem) (this : Nat)
    (p : WString) (flag : Int) (r : WString) (hg : g.OriginalLoadXML ≠ 0)
    (hr : env.invokeLoadXML g.OriginalLoadXML this (some p) flag = some r) :
    (∀ message, env.create_directories_ec fs (LoadXMLProxy.directory p) = some message →
      LoadXMLProxy env g fs this (some p) flag =
        .returned (some r) fs
          [Event.OutputDebugStringW (LoadXMLProxy.callTrace (some p) flag),
            Event.OriginalLoadXML g.OriginalLoadXML this (some p) flag,
            Event.create_directories (LoadXMLProxy.directory p) (some message),
            Event.OutputDebugStringW
              (L "duilib_helper Failed to create directory: " ++ LoadXMLProxy.directory p ++
                L ", error: " ++ message)]) ∧
    (env.create_directories_ec fs (LoadXMLProxy.directory p) = none →
      env.ofstream_is_open (fs.createDirectories (LoadXMLProxy.directory p))
        (LoadXMLProxy.newPath p) = false →
      LoadXMLProxy env g fs this (some p) flag =
        .returned (some r) (fs.createDirectories (LoadXMLProxy.directory p))
          [Event.OutputDebugStringW (LoadXMLProxy.callTrace (some p) flag),
            Event.OriginalLoadXML g.OriginalLoadXML this (some p) flag,
            Event.create_directories (LoadXMLProxy.directory p) none,
            Event.ofstream_open (LoadXMLProxy.newPath p) false,
            Event.OutputDebugStringW
              (L "duilib_helper Failed to open file for writing: " ++
                LoadXMLProxy.newPath p)] ∧
        (fs.createDirectories (LoadXMLProxy.directory p)).files = fs.files) := by
  refine ⟨fun message hec => ?_, fun hec hopen => ⟨?_, rfl⟩⟩
  · rw [LoadXMLProxy_save env g fs this p flag r hg hr, save_eq, hec]
    rfl
  · rw [LoadXMLProxy_save env g fs this p flag r hg hr, save_eq, hec]
    simp [LoadXMLProxy.writeFile, hopen]

/-- C9 on a host where no directory can be created and on one where no file opens. -/
theorem C9_failed_persistence_witness :
    LoadXMLProxy readOnlyEnv sampleGlobals emptyFs 7 (some (L "skin/main.xml")) 0 =
        .returned (some [0x61, 0, 0x62]) emptyFs
          [Event.OutputDebugStringW (L "duilib_helper LoadXML called: path=skin/main.xml, flag=0"),
            Event.OriginalLoadXML 0x10001000 7 (some (L "skin/main.xml")) 0,
            Event.create_directories (L "wxwork_ui\\skin") (some (L "Access is denied.")),
            Event.OutputDebugStringW
              (L "duilib_helper Failed to create directory: wxwork_ui\\skin, error: Access is denied.")] ∧
      LoadXMLProxy noOpenEnv sampleGlobals emptyFs 7 (some (L "skin/main.xml")) 0 =
        .returned (some [0x61, 0, 0x62])
          { dirs := [L "wxwork_ui", L "wxwork_ui\\skin"], files := [] }
          [Event.OutputDebugStringW (L "duilib_helper LoadXML called: path=skin/main.xml, flag=0"),
            Event.OriginalLoadXML 0x10001000 7 (some (L "skin/main.xml")) 0,
            Event.create_directories (L "wxwork_ui\\skin") none,
            Event.ofstream_open (L "wxwork_ui\\skin/main.xml") false,
            Event.OutputDebugStringW
              (L "duilib_helper Failed to open file for writing: wxwork_ui\\skin/main.xml")] :=
  ⟨(C9_failed_persistence readOnlyEnv sampleGlobals emptyFs 7 (L "skin/main.xml") 0
      [0x61, 0, 0x62] (by decide) rfl).1 (L "Access is denied.") (by decide),
    ((C9_failed_persistence noOpenEnv sampleGlobals emptyFs 7 (L "skin/main.xml") 0
      [0x61, 0, 0x62] (by decide) rfl).2 (by decide) (by decide)).1⟩

/-! ## C10: the converter throws -/

/-- C10, as stated, fails: on a host whose converter throws, a call for `a.xml` over a
file system that already holds an artifact there leaves that file changed - it was
truncated when the stream was opened and now holds the three bytes of the byte-order
mark instead of its six earlier bytes. -/
theorem C10_file_not_preserved :
    throwingEnv.invokeLoadXML sampleGlobals.OriginalLoadXML 7 (some (L "a.xml")) 0
        = some [0x61, 0, 0x62] ∧
      throwingEnv.to_bytes (c_str [0x61, 0, 0x62]) = .error (L "bad conversion") ∧
      usedFs.readFile (L "wxwork_ui\\a.xml") = some [0xEF, 0xBB, 0xBF, 0x6F, 0x6C, 0x64] ∧
      ((LoadXMLProxy throwingEnv sampleGlobals usedFs 7 (some (L "a.xml")) 0).fs
          usedFs).readFile (L "wxwork_ui\\a.xml") = some [0xEF, 0xBB, 0xBF] ∧
      ((LoadXMLProxy throwingEnv sampleGlobals usedFs 7 (some (L "a.xml")) 0).fs
          usedFs).readFile (L "wxwork_ui\\a.xml") ≠ usedFs.readFile (L "wxwork_ui\\a.xml") := by
  refine ⟨rfl, rfl, by decide, by decide, by decide⟩

/-- C10, amended. For every call of `LoadXMLProxy` in which the directory is created,
the stream opens and the converter throws: the exception is caught inside the proxy, the
run ends with one failure trace carrying its `what()`, the original result is returned,
and no converted content is written - the destination, created or truncated when the
stream was opened, holds exactly the three bytes of the byte-order mark. -/
theorem C10_converter_throws (env : Env) (g : Globals) (fs : FileSystem) (this : Nat)
    (p : WString) (flag : Int) (r what : WString) (hg : g.OriginalLoadXML ≠ 0)
    (hr : env.invokeLoadXML g.OriginalLoadXML this (some p) flag = some r)
    (hec : env.create_directories_ec fs (LoadXMLProxy.directory p) = none)
    (hopen : env.ofstream_is_open (fs.createDirectories (LoadXMLProxy.directory p))
      (LoadXMLProxy.newPath p) = true)
    (hthrow : env.to_bytes (c_str r) = .error what) :
    LoadXMLProxy env g fs this (some p) flag =
        .returned (some r)
          (((fs.createDirectories (LoadXMLProxy.directory p)).openTruncate
            (LoadXMLProxy.newPath p)).append (LoadXMLProxy.newPath p) bom)
          [Event.OutputDebugStringW (LoadXMLProxy.callTrace (some p) flag),
            Event.OriginalLoadXML g.OriginalLoadXML this (some p) flag,
            Event.create_directories (LoadXMLProxy.directory p) none,
            Event.ofstream_open (LoadXMLProxy.newPath p) true,
            Event.ofstream_write (LoadXMLProxy.newPath p) bom,
            Event.ofstream_close (LoadXMLProxy.newPath p),
            Event.OutputDebugStringW (L "duilib_helper Exception while saving XML: " ++ what)] ∧
      ((LoadXMLProxy env g fs this (some p) flag).fs fs).readFile (LoadXMLProxy.newPath p)
        = some [0xEF, 0xBB, 0xBF] := by
  have h : LoadXMLProxy env g fs this (some p) flag =
        .returned (some r)
          (((fs.createDirectories (LoadXMLProxy.directory p)).openTruncate
            (LoadXMLProxy.newPath p)).append (LoadXMLProxy.newPath p) bom)
          [Event.OutputDebugStringW (LoadXMLProxy.callTrace (some p) flag),
            Event.OriginalLoadXML g.OriginalLoadXML this (some p) flag,
            Event.create_directories (LoadXMLProxy.directory p) none,
            Event.ofstream_open (LoadXMLProxy.newPath p) true,
            Event.ofstream_write (LoadXMLProxy.newPath p) bom,
            Event.ofstream_close (LoadXMLProxy.newPath p),
            Event.OutputDebugStringW
              (L "duilib_helper Exception while saving XML: " ++ what)] := by
    rw [LoadXMLProxy_save env g fs this p flag r hg hr, save_eq, hec]
    simp [LoadXMLProxy.writeFile, hopen, hthrow]
  refine ⟨h, ?_⟩
  rw [h]
  exact readFile_open_append _ _ _

/-- C10, amended, on a host whose converter throws. -/
theorem C10_converter_throws_witness :
    LoadXMLProxy throwingEnv sampleGlobals usedFs 7 (some (L "a.xml")) 0 =
        .returned (some [0x61, 0, 0x62])
          { dirs := [L "wxwork_ui"], files := [(L "wxwork_ui\\a.xml", [0xEF, 0xBB, 0xBF])] }
          [Event.OutputDebugStringW (L "duilib_helper LoadXML called: path=a.xml, flag=0"),
            Event.OriginalLoadXML 0x10001000 7 (some (L "a.xml")) 0,
            Event.create_directories (L "wxwork_ui") none,
            Event.ofstream_open (L "wxwork_ui\\a.xml") true,
            Event.ofstream_write (L "wxwork_ui\\a.xml") [0xEF, 0xBB, 0xBF],
            Event.ofstream_close (L "wxwork_ui\\a.xml"),
            Event.OutputDebugStringW
              (L "duilib_helper Exception while saving XML: bad conversion")] ∧
      ((LoadXMLProxy throwingEnv sampleGlobals usedFs 7 (some (L "a.xml")) 0).fs
          usedFs).readFile (L "wxwork_ui\\a.xml") = some [0xEF, 0xBB, 0xBF] :=
  C10_converter_throws throwingEnv sampleGlobals usedFs 7 (L "a.xml") 0 [0x61, 0, 0x62]
    (L "bad conversion") (by decide) rfl (by decide) (by decide) rfl

/-! ## C3: the original returns null -/

/-- C3, as stated, fails: when the original returns null for a null path, the run is
the call trace and the call of the original, and no trace records the null result. -/
theorem C3_null_path_no_result_trace :
    nullResultEnv.invokeLoadXML sampleGlobals.OriginalLoadXML 7 none 0 = none ∧
      (LoadXMLProxy nullResultEnv sampleGlobals emptyFs 7 none 0).events =
        [Event.OutputDebugStringW (L "duilib_helper LoadXML called: path=NULL, flag=0"),
          Event.OriginalLoadXML 0x10001000 7 none 0] ∧
      (LoadXMLProxy nullResultEnv sampleGlobals emptyFs 7 none 0).events.any
        Event.recordsNullResult = false := by
  refine ⟨rfl, by decide, by decide⟩

/-- C3, amended. For every call of `LoadXMLProxy` in which the original returns null,
the proxy returns null, leaves the file system as it is and performs no directory
creation and no file open or write; with a non-null path it emits, after the call, one
trace recording that the result is null for that path, and with a null path it emits
nothing after the call. -/
theorem C3_null_result (env : Env) (g : Globals) (fs : FileSystem) (this : Nat)
    (path : Option WString) (flag : Int) (hg : g.OriginalLoadXML ≠ 0)
    (hr : env.invokeLoadXML g.OriginalLoadXML this path flag = none) :
    (LoadXMLProxy env g fs this path flag).ret? = some none ∧
      (LoadXMLProxy env g fs this path flag).fs fs = fs ∧
      (LoadXMLProxy env g fs this path flag).events.filter Event.isPersistence = [] ∧
      (∀ p, path = some p →
        (LoadXMLProxy env g fs this path flag).events =
          [Event.OutputDebugStringW (LoadXMLProxy.callTrace path flag),
            Event.OriginalLoadXML g.OriginalLoadXML this path flag,
            Event.OutputDebugStringW
              (L "duilib_helper Cannot save XML: result is NULL for path " ++ p)] ∧
        (LoadXMLProxy env g fs this path flag).events.any Event.recordsNullResult = true) ∧
      (path = none →
        (LoadXMLProxy env g fs this path flag).events =
          [Event.OutputDebugStringW (LoadXMLProxy.callTrace path flag),
            Event.OriginalLoadXML g.OriginalLoadXML this path flag]) := by
  rw [LoadXMLProxy_eq env g fs this path flag hg, hr]
  cases path with
  | none =>
    simp [LoadXMLProxy.capture, Outcome.ret?, Outcome.fs, Outcome.events, Event.isPersistence]
  | some p =>
    have hinfix : L "result is NULL" <:+:
        L "duilib_helper Cannot save XML: result is NULL for path " ++ p :=
      ⟨L "duilib_helper Cannot save XML: ", L " for path " ++ p, by
        simp only [List.append_assoc]; rfl⟩
    simp [LoadXMLProxy.capture, Outcome.ret?, Outcome.fs, Outcome.events,
      Event.isPersistence, Event.recordsNullResult, hinfix]

/-- C3, amended, at a call with a path and at a call without one. -/
theorem C3_null_result_witness :
    ((LoadXMLProxy nullResultEnv sampleGlobals usedFs 7 (some (L "a.xml")) 2).ret? = some none ∧
      (LoadXMLProxy nullResultEnv sampleGlobals usedFs 7 (some (L "a.xml")) 2).fs usedFs
        = usedFs ∧
      (LoadXMLProxy nullResultEnv sampleGlobals usedFs 7
        (some (L "a.xml")) 2).events.filter Event.isPersistence = []) ∧
      (LoadXMLProxy nullResultEnv sampleGlobals usedFs 7 (some (L "a.xml")) 2).events =
        [Event.OutputDebugStringW (L "duilib_helper LoadXML called: path=a.xml, flag=2"),
          Event.OriginalLoadXML 0x10001000 7 (some (L "a.xml")) 2,
          Event.OutputDebugStringW
            (L "duilib_helper Cannot save XML: result is NULL for path a.xml")] ∧
      (LoadXMLProxy nullResultEnv sampleGlobals usedFs 7 none 2).events =
        [Event.OutputDebugStringW (L "duilib_helper LoadXML called: path=NULL, flag=2"),
          Event.OriginalLoadXML 0x10001000 7 none 2] :=
  ⟨⟨(C3_null_result nullResultEnv sampleGlobals usedFs 7 (some (L "a.xml")) 2
        (by decide) rfl).1,
      (C3_null_result nullResultEnv sampleGlobals usedFs 7 (some (L "a.xml")) 2
        (by decide) rfl).2.1,
      (C3_null_result nullResultEnv sampleGlobals usedFs 7 (some (L "a.xml")) 2
        (by decide) rfl).2.2.1⟩,
    ((C3_null_result nullResultEnv sampleGlobals usedFs 7 (some (L "a.xml")) 2
        (by decide) rfl).2.2.2.1 (L "a.xml") rfl).1,
    (C3_null_result nullResultEnv sampleGlobals usedFs 7 none 2
        (by decide) rfl).2.2.2.2 rfl⟩

/-! ## C4: absent and empty path -/

/-- C4, as stated, fails for the empty path: the call trace carries no marker (the path
text is just empty) and, the result being non-null, the proxy creates the directory
`wxwork_ui` and tries to open `wxwork_ui\`. -/
theorem C4_empty_path_persists :
    LoadXMLProxy.callTrace (some []) 0 = L "duilib_helper LoadXML called: path=, flag=0" ∧
      ¬ (L "NULL" <:+: LoadXMLProxy.callTrace (some []) 0) ∧
      (LoadXMLProxy strictOpenEnv sampleGlobals emptyFs 7 (some []) 0).events.filter
          Event.isPersistence =
        [Event.create_directories (L "wxwork_ui") none,
          Event.ofstream_open (L "wxwork_ui\\") false] ∧
      ((LoadXMLProxy strictOpenEnv sampleGlobals emptyFs 7 (some []) 0).fs emptyFs).dirs =
        [L "wxwork_ui"] := by
  refine ⟨by decide, by decide, by decide, by decide⟩

/-- C4, amended. For every call of `LoadXMLProxy` whose path is null, whatever the
original returns, the call trace carries the marker `path=NULL` and the proxy performs
no persistence: the run is the call trace and the call of the original, and the file
system is left as it is. An empty path is not taken as absent: its trace shows an empty
path text and, with a non-null result, the first thing done after the call is the
creation of the directory `wxwork_ui`. -/
theorem C4_null_path (env : Env) (g : Globals) (fs : FileSystem) (this : Nat)
    (flag : Int) (hg : g.OriginalLoadXML ≠ 0) :
    (L "path=NULL" <:+: LoadXMLProxy.callTrace none flag ∧
      LoadXMLProxy env g fs this none flag =
        .returned (env.invokeLoadXML g.OriginalLoadXML this none flag) fs
          [Event.OutputDebugStringW (LoadXMLProxy.callTrace none flag),
            Event.OriginalLoadXML g.OriginalLoadXML this none flag] ∧
      (LoadXMLProxy env g fs this none flag).events.filter Event.isPersistence = []) ∧
    (LoadXMLProxy.callTrace (some []) flag =
        L "duilib_helper LoadXML called: path=, flag=" ++ showInt flag ∧
      ∀ r, env.invokeLoadXML g.OriginalLoadXML this (some []) flag = some r →
        (LoadXMLProxy env g fs this (some []) flag).events.take 3 =
          [Event.OutputDebugStringW (LoadXMLProxy.callTrace (some []) flag),
            Event.OriginalLoadXML g.OriginalLoadXML this (some []) flag,
            Event.create_directories (L "wxwork_ui")
              (env.create_directories_ec fs (L "wxwork_ui"))]) := by
  refine ⟨⟨?_, ?_, ?_⟩, ?_, ?_⟩
  · exact ⟨L "duilib_helper LoadXML called: ", L ", flag=" ++ showInt flag, by
      simp only [LoadXMLProxy.callTrace, List.append_assoc]; rfl⟩
  · rw [LoadXMLProxy_eq env g fs this none flag hg]
    cases env.invokeLoadXML g.OriginalLoadXML this none flag <;> rfl
  · rw [LoadXMLProxy_eq env g fs this none flag hg]
    cases env.invokeLoadXML g.OriginalLoadXML this none flag <;>
      simp [LoadXMLProxy.capture, Outcome.events, Event.isPersistence]
  · have hlit : L "duilib_helper LoadXML called: path=" ++ L ", flag="
        = L "duilib_helper LoadXML called: path=, flag=" := by decide
    simp only [LoadXMLProxy.callTrace, List.append_nil, List.append_assoc]
    rw [← List.append_assoc, hlit]
  · intro r hr
    have hdir : LoadXMLProxy.directory [] = L "wxwork_ui" := by decide
    rw [LoadXMLProxy_save env g fs this [] flag r hg hr, save_eq, hdir]
    cases env.create_directories_ec fs (L "wxwork_ui") <;> rfl

/-- C4, amended, at a call without a path. -/
theorem C4_null_path_witness :
    L "path=NULL" <:+: LoadXMLProxy.callTrace none 0 ∧
      LoadXMLProxy sampleEnv sampleGlobals usedFs 7 none 0 =
        .returned (some [0x61, 0, 0x62]) usedFs
          [Event.OutputDebugStringW (L "duilib_helper LoadXML called: path=NULL, flag=0"),
            Event.OriginalLoadXML 0x10001000 7 none 0] ∧
      (LoadXMLProxy sampleEnv sampleGlobals usedFs 7 none 0).events.filter
        Event.isPersistence = [] :=
  (C4_null_path sampleEnv sampleGlobals usedFs 7 0 (by decide)).1

/-! ## C5: destination, directory, overwrite -/

theorem writeFile_dirs (env : Env) (fs : FileSystem) (r p newPath : WString) :
    (LoadXMLProxy.writeFile env fs r p newPath).1.dirs = fs.dirs := by
  unfold LoadXMLProxy.writeFile
  split
  · split <;> rfl
  · rfl

theorem mem_createDirectories (fs : FileSystem) (dir d : WString) (h : d ∈ pathChain dir) :
    d ∈ (fs.createDirectories dir).dirs := by
  by_cases hd : d ∈ fs.dirs
  · exact List.mem_append_left _ hd
  · exact List.mem_append_right _ (List.mem_filter.mpr ⟨h, by simpa using hd⟩)

theorem mem_pathChain_self (dir : WString) : dir ∈ pathChain dir := by
  simp [pathChain]

theorem mem_pathChain_take (dir : WString) (i : Nat) (h0 : 0 < i) (hi : i < dir.length)
    (hsep : isSeparator (dir.getD i 0) = true) : dir.take i ∈ pathChain dir := by
  unfold pathChain
  refine List.mem_append_left _ (List.mem_map.mpr ⟨i, List.mem_filter.mpr ⟨?_, ?_⟩, rfl⟩)
  · exact List.mem_range.mpr hi
  · rw [Bool.and_eq_true]
    exact ⟨by simpa using h0, hsep⟩

/-- How `LoadXMLProxy` ends when the directory is created, the stream opens and the
converter succeeds. -/
theorem LoadXMLProxy_saved (env : Env) (g : Globals) (fs : FileSystem) (this : Nat)
    (p : WString) (flag : Int) (r : WString) (bytes : Bytes) (hg : g.OriginalLoadXML ≠ 0)
    (hr : env.invokeLoadXML g.OriginalLoadXML this (some p) flag = some r)
    (hec : env.create_directories_ec fs (LoadXMLProxy.directory p) = none)
    (hopen : env.ofstream_is_open (fs.createDirectories (LoadXMLProxy.directory p))
      (LoadXMLProxy.newPath p) = true)
    (hconv : env.to_bytes (c_str r) = .ok bytes) :
    LoadXMLProxy env g fs this (some p) flag =
      .returned (some r)
        ((((fs.createDirectories (LoadXMLProxy.directory p)).openTruncate
          (LoadXMLProxy.newPath p)).append (LoadXMLProxy.newPath p) bom).append
            (LoadXMLProxy.newPath p) bytes)
        [Event.OutputDebugStringW (LoadXMLProxy.callTrace (some p) flag),
          Event.OriginalLoadXML g.OriginalLoadXML this (some p) flag,
          Event.create_directories (LoadXMLProxy.directory p) none,
          Event.ofstream_open (LoadXMLProxy.newPath p) true,
          Event.ofstream_write (LoadXMLProxy.newPath p) bom,
          Event.ofstream_write (LoadXMLProxy.newPath p) bytes,
          Event.ofstream_close (LoadXMLProxy.newPath p),
          Event.OutputDebugStringW
            (L "duilib_helper XML content saved to file (UTF-8): " ++ LoadXMLProxy.newPath p ++
              L " (original path: " ++ p ++ L ")")] := by
  rw [LoadXMLProxy_save env g fs this p flag r hg hr, save_eq, hec]
  simp [LoadXMLProxy.writeFile, hopen, hconv]

theorem writeFile_open_path (env : Env) (fs : FileSystem) (r p newPath path : WString)
    (ok : Bool)
    (h : Event.ofstream_open path ok ∈ (LoadXMLProxy.writeFile env fs r p newPath).2) :
    path = newPath := by
  unfold LoadXMLProxy.writeFile at h
  split at h
  · split at h <;> simp at h <;> exact h.1
  · simp at h
    exact h.1

/-- Content of the destination after the stream opened: the byte-order mark, then the
converted content when the conversion succeeded. -/
theorem writeFile_content (env : Env) (fs : FileSystem) (r p newPath : WString)
    (hopen : env.ofstream_is_open fs newPath = true) :
    (LoadXMLProxy.writeFile env fs r p newPath).1.readFile newPath =
      some (bom ++ match env.to_bytes (c_str r) with
        | .ok utf8Content => utf8Content
        | .error _ => []) := by
  unfold LoadXMLProxy.writeFile
  rw [if_pos hopen]
  cases env.to_bytes (c_str r) with
  | ok b => exact readFile_open_append_append _ _ _ _
  | error e =>
    simp only [List.append_nil]
    exact readFile_open_append _ _ _

/-- C5, amended. For every non-null path `p` and non-null result, the destination of
`LoadXMLProxy` is `wxwork_ui\` followed by `p` unchanged, and the directory it asks for
is the part of the destination before its last backslash or slash. Creating that
directory is the first thing done after the call of the original; a stream is only ever
opened on the destination, and only after that creation has succeeded, at which point
the directory and every directory along it exist, those that were there being kept.
And a second call with the same path, from whatever the first call left, in which the
directory step succeeds and the stream opens, leaves the file holding exactly the
byte-order mark and the converted content of the second call (nothing after the mark
when that conversion throws): nothing of the earlier content remains. -/
theorem C5_destination_directory_overwrite (env env2 : Env) (g g2 : Globals)
    (fs : FileSystem) (this this2 : Nat) (p : WString) (flag flag2 : Int) (r r2 : WString)
    (hg : g.OriginalLoadXML ≠ 0)
    (hr : env.invokeLoadXML g.OriginalLoadXML this (some p) flag = some r) :
    (∃ c file, L "wxwork_ui\\" ++ p = LoadXMLProxy.directory p ++ c :: file ∧
      isSeparator c = true ∧ ∀ x ∈ file, isSeparator x = false) ∧
    (LoadXMLProxy env g fs this (some p) flag).events.take 3 =
      [Event.OutputDebugStringW (LoadXMLProxy.callTrace (some p) flag),
        Event.OriginalLoadXML g.OriginalLoadXML this (some p) flag,
        Event.create_directories (LoadXMLProxy.directory p)
          (env.create_directories_ec fs (LoadXMLProxy.directory p))] ∧
    (∀ path ok, Event.ofstream_open path ok ∈ (LoadXMLProxy env g fs this (some p) flag).events →
      path = L "wxwork_ui\\" ++ p ∧
        env.create_directories_ec fs (LoadXMLProxy.directory p) = none) ∧
    (env.create_directories_ec fs (LoadXMLProxy.directory p) = none →
      (LoadXMLProxy env g fs this (some p) flag).events.get? 3 =
        some (Event.ofstream_open (L "wxwork_ui\\" ++ p)
          (env.ofstream_is_open (fs.createDirectories (LoadXMLProxy.directory p))
            (L "wxwork_ui\\" ++ p))) ∧
      LoadXMLProxy.directory p ∈ ((LoadXMLProxy env g fs this (some p) flag).fs fs).dirs ∧
      (∀ i, 0 < i → i < (LoadXMLProxy.directory p).length →
        isSeparator ((LoadXMLProxy.directory p).getD i 0) = true →
        (LoadXMLProxy.directory p).take i
          ∈ ((LoadXMLProxy env g fs this (some p) flag).fs fs).dirs) ∧
      (∀ d ∈ fs.dirs, d ∈ ((LoadXMLProxy env g fs this (some p) flag).fs fs).dirs)) ∧
    (g2.OriginalLoadXML ≠ 0 →
      env2.invokeLoadXML g2.OriginalLoadXML this2 (some p) flag2 = some r2 →
      env2.create_directories_ec ((LoadXMLProxy env g fs this (some p) flag).fs fs)
        (LoadXMLProxy.directory p) = none →
      env2.ofstream_is_open
        (((LoadXMLProxy env g fs this (some p) flag).fs fs).createDirectories
          (LoadXMLProxy.directory p)) (L "wxwork_ui\\" ++ p) = true →
      ((LoadXMLProxy env2 g2 ((LoadXMLProxy env g fs this (some p) flag).fs fs) this2
          (some p) flag2).fs ((LoadXMLProxy env g fs this (some p) flag).fs fs)).readFile
        (L "wxwork_ui\\" ++ p) =
          some ([0xEF, 0xBB, 0xBF] ++ match env2.to_bytes (c_str r2) with
            | .ok utf8Content => utf8Content
            | .error _ => [])) := by
  have hrun := LoadXMLProxy_save env g fs this p flag r hg hr
  rw [save_eq] at hrun
  refine ⟨directory_spec p, ?_, fun path ok hmem => ?_, fun hec => ?_,
    fun hg2 hr2 hec2 hopen2 => ?_⟩
  · rw [hrun]
    cases env.create_directories_ec fs (LoadXMLProxy.directory p) <;> rfl
  · rw [hrun] at hmem
    cases hec : env.create_directories_ec fs (LoadXMLProxy.directory p) with
    | some message =>
      rw [hec] at hmem
      simp [Outcome.events] at hmem
    | none =>
      rw [hec] at hmem
      simp only [Outcome.events, List.cons_append, List.nil_append, List.mem_cons,
        reduceCtorEq, false_or] at hmem
      exact ⟨writeFile_open_path _ _ _ _ _ _ _ hmem, rfl⟩
  · rw [hec] at hrun
    rw [hrun]
    have hdirs : ∀ d, d ∈ (fs.createDirectories (LoadXMLProxy.directory p)).dirs →
        d ∈ ((Outcome.returned (some r)
          (LoadXMLProxy.writeFile env (fs.createDirectories (LoadXMLProxy.directory p)) r p
            (LoadXMLProxy.newPath p)).1
          ([Event.OutputDebugStringW (LoadXMLProxy.callTrace (some p) flag),
            Event.OriginalLoadXML g.OriginalLoadXML this (some p) flag] ++
            Event.create_directories (LoadXMLProxy.directory p) none ::
              (LoadXMLProxy.writeFile env (fs.createDirectories (LoadXMLProxy.directory p))
                r p (LoadXMLProxy.newPath p)).2) : Outcome (Option WString)).fs fs).dirs := by
      intro d hd
      simp only [Outcome.fs, writeFile_dirs]
      exact hd
    refine ⟨?_, hdirs _ (mem_createDirectories fs _ _ (mem_pathChain_self _)),
      fun i h0 hi hsep => hdirs _ (mem_createDirectories fs _ _
        (mem_pathChain_take _ i h0 hi hsep)),
      fun d hd => hdirs _ (List.mem_append_left _ hd)⟩
    unfold LoadXMLProxy.writeFile
    cases hopen : env.ofstream_is_open (fs.createDirectories (LoadXMLProxy.directory p))
        (LoadXMLProxy.newPath p)
    · have hopen2 : env.ofstream_is_open (fs.createDirectories (LoadXMLProxy.directory p))
          (L "wxwork_ui\\" ++ p) = false := hopen
      simp [Outcome.events, hopen2, LoadXMLProxy.newPath]
    · have hopen2 : env.ofstream_is_open (fs.createDirectories (LoadXMLProxy.directory p))
          (L "wxwork_ui\\" ++ p) = true := hopen
      cases env.to_bytes (c_str r) <;>
        simp [Outcome.events, hopen2, LoadXMLProxy.newPath]
  · rw [LoadXMLProxy_save env2 g2 _ this2 p flag2 r2 hg2 hr2, save_eq, hec2]
    exact writeFile_content env2 _ r2 p (LoadXMLProxy.newPath p) hopen2

/-- C5, amended, at the path `a/b/c/file.xml`, `wxwork_ui\a/b` missing, called twice: the
directory asked for is `wxwork_ui\a/b/c`, it and `wxwork_ui\a/b` exist afterwards, and
the file ends up holding the artifact of the second call. -/
theorem C5_destination_directory_overwrite_witness :
    (∃ c file, L "wxwork_ui\\" ++ L "a/b/c/file.xml" = L "wxwork_ui\\a/b/c" ++ c :: file ∧
      isSeparator c = true ∧ ∀ x ∈ file, isSeparator x = false) ∧
    (LoadXMLProxy sampleEnv sampleGlobals shallowFs 7 (some (L "a/b/c/file.xml")) 0).events.take 3 =
      [Event.OutputDebugStringW (L "duilib_helper LoadXML called: path=a/b/c/file.xml, flag=0"),
        Event.OriginalLoadXML 0x10001000 7 (some (L "a/b/c/file.xml")) 0,
        Event.create_directories (L "wxwork_ui\\a/b/c") none] ∧
    (L "wxwork_ui\\a/b/c/file.xml" = L "wxwork_ui\\" ++ L "a/b/c/file.xml" ∧
      sampleEnv.create_directories_ec shallowFs (L "wxwork_ui\\a/b/c") = none) ∧
    ((LoadXMLProxy sampleEnv sampleGlobals shallowFs 7 (some (L "a/b/c/file.xml")) 0).events.get? 3 =
        some (Event.ofstream_open (L "wxwork_ui\\a/b/c/file.xml") true) ∧
      L "wxwork_ui\\a/b/c" ∈ ((LoadXMLProxy sampleEnv sampleGlobals shallowFs 7
        (some (L "a/b/c/file.xml")) 0).fs shallowFs).dirs ∧
      (∀ i, 0 < i → i < (L "wxwork_ui\\a/b/c").length →
        isSeparator ((L "wxwork_ui\\a/b/c").getD i 0) = true →
        (L "wxwork_ui\\a/b/c").take i ∈ ((LoadXMLProxy sampleEnv sampleGlobals shallowFs 7
          (some (L "a/b/c/file.xml")) 0).fs shallowFs).dirs) ∧
      (∀ d ∈ shallowFs.dirs, d ∈ ((LoadXMLProxy sampleEnv sampleGlobals shallowFs 7
        (some (L "a/b/c/file.xml")) 0).fs shallowFs).dirs)) ∧
    ((LoadXMLProxy laterEnv sampleGlobals
        ((LoadXMLProxy sampleEnv sampleGlobals shallowFs 7 (some (L "a/b/c/file.xml")) 0).fs
          shallowFs) 8 (some (L "a/b/c/file.xml")) 1).fs
        ((LoadXMLProxy sampleEnv sampleGlobals shallowFs 7 (some (L "a/b/c/file.xml")) 0).fs
          shallowFs)).readFile (L "wxwork_ui\\" ++ L "a/b/c/file.xml")
      = some ([0xEF, 0xBB, 0xBF] ++ L "<r/>") :=
  ⟨(C5_destination_directory_overwrite sampleEnv laterEnv sampleGlobals sampleGlobals
      shallowFs 7 8 (L "a/b/c/file.xml") 0 1 [0x61, 0, 0x62] (L "<r/>")
      (by decide) rfl).1,
    (C5_destination_directory_overwrite sampleEnv laterEnv sampleGlobals sampleGlobals
      shallowFs 7 8 (L "a/b/c/file.xml") 0 1 [0x61, 0, 0x62] (L "<r/>")
      (by decide) rfl).2.1,
    (C5_destination_directory_overwrite sampleEnv laterEnv sampleGlobals sampleGlobals
      shallowFs 7 8 (L "a/b/c/file.xml") 0 1 [0x61, 0, 0x62] (L "<r/>")
      (by decide) rfl).2.2.1 (L "wxwork_ui\\a/b/c/file.xml") true (by decide),
    (C5_destination_directory_overwrite sampleEnv laterEnv sampleGlobals sampleGlobals
      shallowFs 7 8 (L "a/b/c/file.xml") 0 1 [0x61, 0, 0x62] (L "<r/>")
      (by decide) rfl).2.2.2.1 (by decide),
    (C5_destination_directory_overwrite sampleEnv laterEnv sampleGlobals sampleGlobals
      shallowFs 7 8 (L "a/b/c/file.xml") 0 1 [0x61, 0, 0x62] (L "<r/>")
      (by decide) rfl).2.2.2.2 (by decide) rfl (by decide) (by decide)⟩

/-- C5, as stated, fails in its last part: a first call for `a.xml` writes
`EF BB BF 61`; a second call with the same path whose result is the non-null text
`<r/>`, on a host where the stream does not open (or where `create_directories` reports
an error), returns that result and leaves the file holding the bytes of the first
call, not the byte-order mark followed by `<r/>`. -/
theorem C5_failed_second_call_keeps_first :
    ((LoadXMLProxy sampleEnv sampleGlobals emptyFs 7 (some (L "a.xml")) 0).fs
        emptyFs).readFile (L "wxwork_ui\\a.xml") = some [0xEF, 0xBB, 0xBF, 0x61] ∧
      (LoadXMLProxy laterNoOpenEnv sampleGlobals
        ((LoadXMLProxy sampleEnv sampleGlobals emptyFs 7 (some (L "a.xml")) 0).fs emptyFs)
        8 (some (L "a.xml")) 1).ret? = some (some (L "<r/>")) ∧
      ((LoadXMLProxy laterNoOpenEnv sampleGlobals
        ((LoadXMLProxy sampleEnv sampleGlobals emptyFs 7 (some (L "a.xml")) 0).fs emptyFs)
        8 (some (L "a.xml")) 1).fs emptyFs).readFile (L "wxwork_ui\\a.xml")
          = some [0xEF, 0xBB, 0xBF, 0x61] ∧
      (LoadXMLProxy laterReadOnlyEnv sampleGlobals
        ((LoadXMLProxy sampleEnv sampleGlobals emptyFs 7 (some (L "a.xml")) 0).fs emptyFs)
        8 (some (L "a.xml")) 1).ret? = some (some (L "<r/>")) ∧
      ((LoadXMLProxy laterReadOnlyEnv sampleGlobals
        ((LoadXMLProxy sampleEnv sampleGlobals emptyFs 7 (some (L "a.xml")) 0).fs emptyFs)
        8 (some (L "a.xml")) 1).fs emptyFs).readFile (L "wxwork_ui\\a.xml")
          = some [0xEF, 0xBB, 0xBF, 0x61] ∧
      laterEnv.to_bytes (c_str (L "<r/>")) = .ok (L "<r/>") ∧
      [0xEF, 0xBB, 0xBF, 0x61] ≠ [0xEF, 0xBB, 0xBF] ++ L "<r/>" := by
  refine ⟨by decide, by decide, by decide, by decide, by decide, rfl, by decide⟩

/-! ## C6: failed resolution -/

/-- C6. For every run of `hook_load_xml` in which `LoadLibraryW` or `GetProcAddress`
fails, and every run of `hook_write_log` in which `LoadLibraryW` fails: no patching call
(transaction begin, update-thread, attach, commit) is issued, exactly one diagnostic
trace is emitted, and the globals are left as they were - so a saved pointer that was
null is still null. -/
theorem C6_failed_resolution (env : Env) (g : Globals) :
    (env.LoadLibraryW (L "duilib.dll") = 0 ∨
        env.GetProcAddress (env.LoadLibraryW (L "duilib.dll")) LoadXML_symbol = 0 →
      (hook_load_xml env g).2.filter Event.isPatching = [] ∧
        (hook_load_xml env g).2.filter Event.isTrace
          = [Event.OutputDebugStringW
              ((if env.LoadLibraryW (L "duilib.dll") = 0 then L "LoadLibraryW failed: "
                else L "GetProcAddress failed: ") ++ showNat env.GetLastError)] ∧
        (hook_load_xml env g).1 = g ∧
        (g.OriginalLoadXML = 0 → (hook_load_xml env g).1.OriginalLoadXML = 0)) ∧
    (env.LoadLibraryW (L "wxwork.exe") = 0 →
      (hook_write_log env g).2.filter Event.isPatching = [] ∧
        (hook_write_log env g).2.filter Event.isTrace
          = [Event.OutputDebugStringW (L "LoadLibraryW failed: " ++ showNat env.GetLastError)] ∧
        (hook_write_log env g).1 = g ∧
        (g.OriginalWriteLog = 0 → (hook_write_log env g).1.OriginalWriteLog = 0)) := by
  refine ⟨fun h => ?_, fun h => ?_⟩
  · by_cases hload : env.LoadLibraryW (L "duilib.dll") = 0
    · have hrun : hook_load_xml env g =
          (g, [Event.LoadLibraryW (L "duilib.dll") 0,
            Event.OutputDebugStringW (L "LoadLibraryW failed: " ++ showNat env.GetLastError)]) := by
        simp [hook_load_xml, hload]
      rw [hrun]
      exact ⟨by simp [Event.isPatching], by simp [Event.isTrace, hload], rfl, fun h0 => h0⟩
    · have hsym : env.GetProcAddress (env.LoadLibraryW (L "duilib.dll")) LoadXML_symbol = 0 :=
        h.resolve_left hload
      have hrun : hook_load_xml env g =
          (g, [Event.LoadLibraryW (L "duilib.dll") (env.LoadLibraryW (L "duilib.dll")),
            Event.GetProcAddress (env.LoadLibraryW (L "duilib.dll")) LoadXML_symbol 0,
            Event.OutputDebugStringW (L "GetProcAddress failed: " ++ showNat env.GetLastError),
            Event.FreeLibrary (env.LoadLibraryW (L "duilib.dll"))]) := by
        simp [hook_load_xml, hload, hsym]
      rw [hrun]
      exact ⟨by simp [Event.isPatching], by simp [Event.isTrace, hload], rfl, fun h0 => h0⟩
  · have hrun : hook_write_log env g =
        (g, [Event.LoadLibraryW (L "wxwork.exe") 0,
          Event.OutputDebugStringW (L "LoadLibraryW failed: " ++ showNat env.GetLastError)]) := by
      simp [hook_write_log, h]
    rw [hrun]
    exact ⟨by simp [Event.isPatching], by simp [Event.isTrace], rfl, fun h0 => h0⟩

/-- C6 on a host where no module loads and on one where the symbol is missing. -/
theorem C6_failed_resolution_witness :
    ((hook_load_xml noModuleEnv Globals.initial).2.filter Event.isPatching = [] ∧
        (hook_load_xml noModuleEnv Globals.initial).2.filter Event.isTrace
          = [Event.OutputDebugStringW (L "LoadLibraryW failed: 126")] ∧
        (hook_load_xml noModuleEnv Globals.initial).1 = Globals.initial ∧
        (Globals.initial.OriginalLoadXML = 0 →
          (hook_load_xml noModuleEnv Globals.initial).1.OriginalLoadXML = 0)) ∧
      ((hook_load_xml noSymbolEnv Globals.initial).2.filter Event.isPatching = [] ∧
        (hook_load_xml noSymbolEnv Globals.initial).2.filter Event.isTrace
          = [Event.OutputDebugStringW (L "GetProcAddress failed: 127")] ∧
        (hook_load_xml noSymbolEnv Globals.initial).1 = Globals.initial ∧
        (Globals.initial.OriginalLoadXML = 0 →
          (hook_load_xml noSymbolEnv Globals.initial).1.OriginalLoadXML = 0)) ∧
      ((hook_write_log noModuleEnv Globals.initial).2.filter Event.isPatching = [] ∧
        (hook_write_log noModuleEnv Globals.initial).2.filter Event.isTrace
          = [Event.OutputDebugStringW (L "LoadLibraryW failed: 126")] ∧
        (hook_write_log noModuleEnv Globals.initial).1 = Globals.initial ∧
        (Globals.initial.OriginalWriteLog = 0 →
          (hook_write_log noModuleEnv Globals.initial).1.OriginalWriteLog = 0)) :=
  ⟨(C6_failed_resolution noModuleEnv Globals.initial).1 (Or.inl (by decide)),
    (C6_failed_resolution noSymbolEnv Globals.initial).1 (Or.inr (by decide)),
    (C6_failed_resolution noModuleEnv Globals.initial).2 (by decide)⟩

/-! ## C7: unloading -/

/-- C7 fails on the code. In a life of the DLL where `wxwork.exe` loads and the attach
transaction commits, the `WriteLog` hook is attached when the unload notification
arrives, yet `DllMain(DLL_PROCESS_DETACH)` issues no call at all and leaves it attached:
the only detach in `DllMain` is for `LoadXMLProxy`, so no run of it ever detaches
`WriteLogProxy`. And the test guarding that detach is the saved pointer, not the
outcome of the commit: after `hook_load_xml` with a failing commit nothing is attached,
and the unload notification still issues a detach transaction for `LoadXMLProxy`. -/
theorem C7_unload_detaches_only_LoadXML :
    lifecycle sampleEnv =
        ({ OriginalLoadXML := 0, OriginalWriteLog := 0x83D158,
            attached := [Proxy.WriteLogProxy] }, [],
          { OriginalLoadXML := 0, OriginalWriteLog := 0x83D158,
            attached := [Proxy.WriteLogProxy] }) ∧
      (∀ (env : Env) (g : Globals) (reason : Nat),
        (DllMain env g reason).2.any (Event.isDetachOf Proxy.WriteLogProxy) = false) ∧
      (hook_load_xml commitFailEnv Globals.initial).1 =
        { OriginalLoadXML := 0x10001000, OriginalWriteLog := 0, attached := [] } ∧
      (DllMain commitFailEnv (hook_load_xml commitFailEnv Globals.initial).1
          DLL_PROCESS_DETACH).2 =
        [Event.DetourTransactionBegin, Event.DetourUpdateThread,
          Event.DetourDetach 0x10001000 Proxy.LoadXMLProxy,
          Event.DetourTransactionCommit 0] := by
  refine ⟨by decide, ?_, by decide, by decide⟩
  intro env g reason
  unfold DllMain
  by_cases h1 : reason = DLL_PROCESS_ATTACH
  · by_cases h2 : env.CreateThread = 0 <;> simp [h1, h2, Event.isDetachOf]
  · by_cases h2 : reason = DLL_PROCESS_DETACH
    · subst h2
      have hne : ¬ DLL_PROCESS_DETACH = DLL_PROCESS_ATTACH := by decide
      by_cases h3 : g.OriginalLoadXML = 0 <;> simp [hne, h3, Event.isDetachOf]
    · simp [h1, h2]

/-! ## C8: null arguments before the call -/

/-- C8 fails on the code. The pre-call observation of `LoadXMLProxy` tests `path` before
using it and never faults, whatever the arguments; the one of `WriteLogProxy` evaluates
`log->c_str()` with no test, so `WriteLogProxy(this, nullptr)` faults before any trace
is emitted and before the original is called. -/
theorem C8_WriteLogProxy_null_log_faults (env : Env) (g : Globals) (fs : FileSystem)
    (this : Nat) :
    WriteLogProxy.observe none = .error () ∧
      WriteLogProxy env g fs this none = .fault [] ∧
      (WriteLogProxy env g fs this none).faulted = true ∧
      (WriteLogProxy env g fs this none).events.filter Event.isOriginalCall = [] ∧
      ∀ (path : Option WString) (flag : Int),
        LoadXMLProxy.observe path flag
          = .ok [Event.OutputDebugStringW (LoadXMLProxy.callTrace path flag)] :=
  ⟨rfl, rfl, rfl, rfl, fun _ _ => rfl⟩

/-! ## C2: content of the written file -/

theorem c_str_eq_self : ∀ s : List Nat, (∀ c ∈ s, c ≠ 0) → c_str s = s
  | [], _ => rfl
  | c :: cs, h => by
    have hc : c ≠ 0 := h c (List.mem_cons_self _ _)
    have hcs : c_str cs = cs := c_str_eq_self cs (fun x hx => h x (List.mem_cons_of_mem _ hx))
    unfold c_str at hcs ⊢
    have hb : (c != 0) = true := by simpa using hc
    rw [List.takeWhile_cons, hb]
    simp only [if_true]
    rw [hcs]

theorem utf8_decode_one (c : Nat) (bs : Bytes) (h : c < 0x80) :
    utf8_decode (c :: bs) = (utf8_decode bs).map (fun cs => c :: cs) := by
  match bs with
  | [] => simp [utf8_decode, h]
  | [b1] => simp [utf8_decode, h]
  | b1 :: b2 :: rest => simp [utf8_decode, h]

theorem utf8_decode_two (c : Nat) (bs : Bytes) (h1 : 0x80 ≤ c) (h2 : c < 0x800) :
    utf8_decode ((0xC0 + c / 64) :: (0x80 + c % 64) :: bs)
      = (utf8_decode bs).map (fun cs => c :: cs) := by
  have ha : ¬ (0xC0 + c / 64 < 0x80) := by omega
  have hb : 0xC0 ≤ 0xC0 + c / 64 ∧ 0xC0 + c / 64 < 0xE0 := by omega
  have hv : (0xC0 + c / 64 - 0xC0) * 64 + (0x80 + c % 64 - 0x80) = c := by omega
  match bs with
  | [] => simp only [utf8_decode, if_neg ha, if_pos hb, hv]; rfl
  | b2 :: rest => simp only [utf8_decode, if_neg ha, if_pos hb, hv]

theorem utf8_decode_three (c : Nat) (bs : Bytes) (h1 : 0x800 ≤ c) (h2 : c < 0x10000) :
    utf8_decode ((0xE0 + c / 4096) :: (0x80 + c / 64 % 64) :: (0x80 + c % 64) :: bs)
      = (utf8_decode bs).map (fun cs => c :: cs) := by
  have ha : ¬ (0xE0 + c / 4096 < 0x80) := by omega
  have hb : ¬ (0xC0 ≤ 0xE0 + c / 4096 ∧ 0xE0 + c / 4096 < 0xE0) := by omega
  have hc : 0xE0 ≤ 0xE0 + c / 4096 ∧ 0xE0 + c / 4096 < 0xF0 := by omega
  have hv : (0xE0 + c / 4096 - 0xE0) * 4096 + (0x80 + c / 64 % 64 - 0x80) * 64
      + (0x80 + c % 64 - 0x80) = c := by omega
  simp only [utf8_decode, if_neg ha, if_neg hb, if_pos hc, hv]

/-- Decoding what the converter produced gives the text back, for every text of
16-bit code units. -/
theorem utf8_decode_encode :
    ∀ s : WString, (∀ c ∈ s, c < 0x10000) →
      ∃ bytes, utf8_encode s = some bytes ∧ utf8_decode bytes = some s
  | [], _ => ⟨[], rfl, by simp [utf8_decode]⟩
  | c :: cs, h => by
    have hc : c < 0x10000 := h c (List.mem_cons_self _ _)
    obtain ⟨bs, hbs, hdec⟩ := utf8_decode_encode cs (fun x hx => h x (List.mem_cons_of_mem _ hx))
    by_cases h1 : c < 0x80
    · refine ⟨[c] ++ bs, by simp [utf8_encode, codecvt_utf8_out, h1, hbs], ?_⟩
      simp [utf8_decode_one c bs h1, hdec]
    · by_cases h2 : c < 0x800
      · refine ⟨[0xC0 + c / 64, 0x80 + c % 64] ++ bs,
          by simp [utf8_encode, codecvt_utf8_out, h1, h2, hbs], ?_⟩
        simp [utf8_decode_two c bs (by omega) h2, hdec]
      · refine ⟨[0xE0 + c / 4096, 0x80 + c / 64 % 64, 0x80 + c % 64] ++ bs,
          by simp [utf8_encode, codecvt_utf8_out, h1, h2, hc, hbs], ?_⟩
        simp [utf8_decode_three c bs (by omega) hc, hdec]

/-- What the proxy writes when everything succeeds: the byte-order mark followed by the
conversion of the result as read through `c_str()`, that is of the code units before
the first NUL. For a result of 16-bit code units none of which is NUL, and the converter
of the library, these bytes decode to the whole content. -/
theorem saved_file_content (env : Env) (g : Globals) (fs : FileSystem) (this : Nat)
    (p : WString) (flag : Int) (r : WString) (bytes : Bytes) (hg : g.OriginalLoadXML ≠ 0)
    (hr : env.invokeLoadXML g.OriginalLoadXML this (some p) flag = some r)
    (hec : env.create_directories_ec fs (LoadXMLProxy.directory p) = none)
    (hopen : env.ofstream_is_open (fs.createDirectories (LoadXMLProxy.directory p))
      (LoadXMLProxy.newPath p) = true)
    (hconv : env.to_bytes (c_str r) = .ok bytes) :
    ((LoadXMLProxy env g fs this (some p) flag).fs fs).readFile (L "wxwork_ui\\" ++ p)
        = some ([0xEF, 0xBB, 0xBF] ++ bytes) ∧
      (env.to_bytes = wstring_convert_to_bytes → (∀ c ∈ r, c ≠ 0 ∧ c < 0x10000) →
        utf8_encode r = some bytes ∧ utf8_decode bytes = some r) := by
  refine ⟨?_, fun hlib hunits => ?_⟩
  · rw [LoadXMLProxy_saved env g fs this p flag r bytes hg hr hec hopen hconv]
    exact readFile_open_append_append _ _ _ _
  · obtain ⟨b, hb, hdec⟩ := utf8_decode_encode r (fun c hc => (hunits c hc).2)
    rw [hlib, c_str_eq_self r (fun c hc => (hunits c hc).1)] at hconv
    simp only [wstring_convert_to_bytes, hb, Except.ok.injEq] at hconv
    subst hconv
    exact ⟨hb, hdec⟩

/-- C2 fails on the code. `LoadXML` returns the three code units `a`, NUL, `b` for
`a.xml`; directory creation, open and conversion succeed; the UTF-8 encoding of the
whole content is `61 00 62`, but the file holds `EF BB BF 61`: the content is handed to
the converter as `result->c_str()`, which ends at the first NUL, and what follows the
byte-order mark decodes to `a` alone. -/
theorem C2_embedded_nul_truncates :
    sampleEnv.invokeLoadXML sampleGlobals.OriginalLoadXML 7 (some (L "a.xml")) 0
        = some [0x61, 0, 0x62] ∧
      sampleEnv.create_directories_ec emptyFs (LoadXMLProxy.directory (L "a.xml")) = none ∧
      sampleEnv.to_bytes (c_str [0x61, 0, 0x62]) = .ok [0x61] ∧
      utf8_encode [0x61, 0, 0x62] = some [0x61, 0, 0x62] ∧
      ((LoadXMLProxy sampleEnv sampleGlobals emptyFs 7 (some (L "a.xml")) 0).fs
          emptyFs).readFile (L "wxwork_ui\\a.xml") = some [0xEF, 0xBB, 0xBF, 0x61] ∧
      utf8_decode [0x61] = some [0x61] ∧
      utf8_decode [0x61, 0, 0x62] = some [0x61, 0, 0x62] := by
  refine ⟨rfl, rfl, rfl, by decide, by decide, by decide, by decide⟩

end WxworkTools
